import Mathlib

/-!
Verification of the conversation-synchronization and voice-coordination core of
the Copilot Studio chat control (ChatWindow.tsx, CopilotChatService.ts, the
control entry point, and storage helpers), as a shallow embedding.

Encoding conventions, shared by all definitions below:
* TypeScript optional string fields (`id?: string`, `text?: string`, ...) are
  `Option String`.  Every read of such a field in the source goes through a JS
  truthiness check (`x || d`, `if (x)`), under which `undefined` and `""`
  behave identically; `jsTruthy`/`jsOr` encode that check.
* Optional arrays (`attachments?`, `buttons?`, `body?`) are `Option (List _)`;
  the source always guards them with `arr && arr.length > 0`.
* The single browser event loop is modelled by running each poll tick as a
  pure state transformer; reads of mutable refs that another task may flip
  concurrently (`cancelSpeechRef`) are supplied by an oracle (`SpeakEnv`).
* Network calls are parameterized by their outcome (`Except`/inductive result
  types); numbers such as recognition confidence are `ℚ` (the source only
  compares against the exact constant 0.5).
* UI-only state (scroll position, typing indicator, lastBotResponse display,
  log output) is not part of the model.
-/

/-- JS truthiness of an optional string: `undefined` and `""` are falsy. -/
def jsTruthy (o : Option String) : Bool :=
  match o with
  | some s => s ≠ ""
  | none => false

/-- JS `o || d` on an optional string. -/
def jsOr (o : Option String) (d : String) : String :=
  match o with
  | some s => if s = "" then d else s
  | none => d

/-- A button of a sign-in / OAuth card (`content.buttons` in the Activity type). -/
structure CardButton where
  value : String
deriving DecidableEq, Repr

/-- One element of an adaptive card body (`content.body` items, `text?: string`). -/
structure CardBodyItem where
  text : Option String
deriving DecidableEq, Repr

/-- Attachment content as declared in `CopilotChatService.ts` (`Activity.attachments[].content`). -/
structure CardContent where
  buttons : Option (List CardButton)
  body : Option (List CardBodyItem)
  speak : Option String
deriving DecidableEq, Repr

/-- A Direct Line attachment: content type plus optional card content. -/
structure Attachment where
  contentType : String
  content : Option CardContent
deriving DecidableEq, Repr

/-- `Activity.channelData` (`silentGreeting?: boolean`). -/
structure ChannelData where
  silentGreeting : Option Bool
deriving DecidableEq, Repr

/-- A raw Direct Line activity ("Turn"), following the `Activity` interface of
`CopilotChatService.ts`.  `fromId` is `activity.from.id`. -/
structure Activity where
  id : Option String
  type : String
  fromId : String
  text : Option String
  timestamp : Option String
  attachments : Option (List Attachment)
  channelData : Option ChannelData
deriving DecidableEq, Repr

/-- A mapped local chat message (the `Message` interface of `ChatWindow.tsx`).
The mapper always assigns `speakText` (via `speakText || messageText`), so it
is a plain `String` here; `""` encodes a JS-falsy speak text. -/
structure Message where
  id : String
  text : String
  isUser : Bool
  timestamp : Option String
  signInUrl : Option String
  isSignInCard : Bool
  adaptiveCard : Option CardContent
  speakText : String
deriving DecidableEq, Repr

def oauthCardType : String := "application/vnd.microsoft.card.oauth"
def signinCardType : String := "application/vnd.microsoft.card.signin"
def adaptiveCardType : String := "application/vnd.microsoft.card.adaptive"

/-- The non-empty texts of an adaptive card body:
`body.map(item => item.text || '').filter(text => text)`. -/
def bodyTexts (body : List CardBodyItem) : List String :=
  (body.map (fun i => jsOr i.text "")).filter (fun t => t ≠ "")

/-- Intermediate result of examining `activity.attachments[0]` in `pollMessages`:
the (possibly overwritten) message text, sign-in URL, sign-in flag, adaptive
card, and raw speak text (before the `speakText || messageText` fallback). -/
structure MapAcc where
  messageText : String
  signInUrl : Option String
  isSignInCard : Bool
  adaptiveCard : Option CardContent
  speakText : String
deriving DecidableEq, Repr

/-- The attachment branch of the mapper in `pollMessages` (ChatWindow.tsx
lines 317-356), applied to the first attachment. -/
def mapAttachment (messageText : String) (att : Attachment) : MapAcc :=
  if att.contentType = oauthCardType ∨ att.contentType = signinCardType then
    let signInUrl : Option String :=
      match att.content with
      | some c =>
        match c.buttons with
        | some (b :: _) => some b.value
        | _ => none
      | none => none
    { messageText := "Authentication required", signInUrl := signInUrl,
      isSignInCard := true, adaptiveCard := none, speakText := "" }
  else
    match att.content with
    | some card =>
      if att.contentType = adaptiveCardType then
        let speakText :=
          if jsTruthy card.speak then jsOr card.speak ""
          else
            match card.body with
            | some body =>
              if 0 < body.length then String.intercalate ". " (bodyTexts body) else ""
            | none => ""
        let messageText :=
          if messageText = "" then
            match card.body with
            | some body =>
              if 0 < body.length then String.intercalate " " (bodyTexts body) else messageText
            | none => messageText
          else messageText
        { messageText := messageText, signInUrl := none, isSignInCard := false,
          adaptiveCard := some card, speakText := speakText }
      else
        { messageText := messageText, signInUrl := none, isSignInCard := false,
          adaptiveCard := none, speakText := "" }
    | none =>
      { messageText := messageText, signInUrl := none, isSignInCard := false,
        adaptiveCard := none, speakText := "" }

/-- The Turn Mapper: the `.map` body of `pollMessages` (ChatWindow.tsx lines
304-376).  `freshId` stands for the `Math.random().toString()` fallback id. -/
def mapActivity (freshId : String) (a : Activity) : Message :=
  let messageText := jsOr a.text ""
  let acc :=
    match a.attachments with
    | some (att :: _) => mapAttachment messageText att
    | some [] =>
      { messageText := messageText, signInUrl := none, isSignInCard := false,
        adaptiveCard := none, speakText := "" }
    | none =>
      { messageText := messageText, signInUrl := none, isSignInCard := false,
        adaptiveCard := none, speakText := "" }
  { id := jsOr a.id freshId
    text := acc.messageText
    isUser := false
    timestamp := a.timestamp
    signInUrl := acc.signInUrl
    isSignInCard := acc.isSignInCard
    adaptiveCard := acc.adaptiveCard
    speakText := if acc.speakText = "" then acc.messageText else acc.speakText }

/-- The content filter of `pollMessages` (lines 377-387):
`msg.text || msg.isSignInCard || msg.adaptiveCard`. -/
def hasContent (m : Message) : Bool :=
  (m.text ≠ "" : Bool) || m.isSignInCard || m.adaptiveCard.isSome

/-- Whether the mapped message of an activity passes the content filter; this
does not depend on the fresh id, see `hasContent_mapActivity`. -/
def activityHasContent (a : Activity) : Bool :=
  hasContent (mapActivity "" a)

/-- Dedup key of an activity: `activity.id || ''` (line 296). -/
def actKey (a : Activity) : String :=
  jsOr a.id ""

theorem mapActivity_id (f : String) (a : Activity) : (mapActivity f a).id = jsOr a.id f := rfl

/-- The content of a mapped message does not depend on the fresh id. -/
theorem hasContent_mapActivity (f : String) (a : Activity) :
    hasContent (mapActivity f a) = activityHasContent a := rfl

/-- Mutable conversation state owned by `ChatWindow`:
`seenMessageIds`, `spokenMessageIds` (both `Set<string>` refs, here lists used
as sets), the `messages` transcript, and the `isSpeakingRef` / `isPlaying`
flags of the Speech Output Coordinator. -/
structure ChatState where
  seen : List String
  spoken : List String
  transcript : List Message
  isSpeaking : Bool
  isPlaying : Bool
deriving DecidableEq, Repr

/-- Oracle for the asynchronous environment of one speech walk:
`cancelAt n` is the value of `cancelSpeechRef.current` read just before the
n-th utterance (another task may set it at any time), and `throwsAt n` tells
whether the n-th `speak` call rejects. -/
structure SpeakEnv where
  cancelAt : Nat → Bool
  throwsAt : Nat → Bool

/-- Outcome of a single `speak` invocation, per the environment oracle. -/
def speakCall (env : SpeakEnv) (n : Nat) : Except Unit Unit :=
  if env.throwsAt n then Except.error () else Except.ok ()

/-- The sequential speech walk of `pollMessages` (lines 442-454): before each
utterance the cancellation flag is checked and, if set, the walk breaks; each
`speak` call is awaited inside `try { ... } catch { log }`, so a rejection is
swallowed and the walk continues with the next message.  Returns the list of
texts for which `speak` was invoked. -/
def walkLoop (env : SpeakEnv) : Nat → List Message → List String
  | _, [] => []
  | n, m :: rest =>
    if env.cancelAt n then []
    else
      match speakCall env n with
      | Except.ok _ => m.speakText :: walkLoop env (n + 1) rest
      | Except.error _ => m.speakText :: walkLoop env (n + 1) rest

/-- The speech task spawned after acquiring the lock: runs the walk, then the
`finally` block (lines 455-458) sets `isPlaying` to false and releases
`isSpeakingRef` unconditionally. -/
def runSpeakTask (env : SpeakEnv) (msgs : List Message) (st : ChatState) :
    ChatState × List String :=
  let utts := walkLoop env 0 msgs
  ({ st with isSpeaking := false, isPlaying := false }, utts)

/-- The marking loop of `pollMessages` (lines 403-409): for each new message
with a truthy `speakText` whose id is not yet in `spokenMessageIds`, add the id
to the set and collect the message as unspoken. -/
def markUnspoken (spoken : List String) : List Message → List String × List Message
  | [] => (spoken, [])
  | m :: rest =>
    if m.speakText ≠ "" ∧ m.id ∉ spoken then
      let r := markUnspoken (m.id :: spoken) rest
      (r.1, m :: r.2)
    else markUnspoken spoken rest

/-- The dedup filter of `pollMessages` (lines 294-303): activities whose key
`activity.id || ''` is already in `seenMessageIds` are dropped; each surviving
activity adds its key to the set before the next activity is examined. -/
def dedupActivities (seen : List String) : List Activity → List String × List Activity
  | [] => (seen, [])
  | a :: rest =>
    if actKey a ∈ seen then dedupActivities seen rest
    else
      let r := dedupActivities (actKey a :: seen) rest
      (r.1, a :: r.2)

/-- Maps surviving activities in order, drawing one fresh fallback id per
activity (the per-element `Math.random().toString()` calls). -/
def mapWithFresh (fresh : Nat → String) : Nat → List Activity → List Message
  | _, [] => []
  | n, a :: rest => mapActivity (fresh n) a :: mapWithFresh fresh (n + 1) rest

/-- The new chat messages one poll cycle produces from the fetched activities:
dedup against `seen`, map, filter for content. -/
def cycleNewMessages (fresh : Nat → String) (seen : List String)
    (acts : List Activity) : List Message :=
  (mapWithFresh fresh 0 (dedupActivities seen acts).2).filter (fun m => hasContent m)

/-- The speech-output section of `pollMessages` (lines 399-470): when
`shouldSpeak = !isMuted || drivingMode`, mark the new messages spoken and
collect the unspoken ones; return without speaking when nothing is unspoken or
when the speaking lock is already held; otherwise acquire the lock and run the
speech task. -/
def speakPhase (muted driving : Bool) (env : SpeakEnv) (newMsgs : List Message)
    (st : ChatState) : ChatState × List String :=
  if !muted || driving then
    let mk := markUnspoken st.spoken newMsgs
    let st3 : ChatState := { st with spoken := mk.1 }
    if mk.2.isEmpty then (st3, [])
    else if st3.isSpeaking then (st3, [])
    else runSpeakTask env mk.2 { st3 with isSpeaking := true, isPlaying := true }
  else (st, [])

/-- One successful poll cycle of `pollMessages` (ChatWindow.tsx lines 289-471)
as a state transformer.  Returns the new state and the texts of the speech
invocations the cycle performed.  The asynchronous speech task is run to
completion within the cycle; a walk still in flight from an earlier cycle is
represented by entering the cycle with `isSpeaking = true`. -/
def pollCycle (muted driving : Bool) (fresh : Nat → String) (env : SpeakEnv)
    (acts : List Activity) (st : ChatState) : ChatState × List String :=
  let d := dedupActivities st.seen acts
  let newMsgs := (mapWithFresh fresh 0 d.2).filter (fun m => hasContent m)
  let st1 : ChatState := { st with seen := d.1 }
  if newMsgs.isEmpty then (st1, [])
  else speakPhase muted driving env newMsgs
    { st1 with transcript := st1.transcript ++ newMsgs }

/-- Inputs of one tick of the 3-second poll interval: the transport outcome
(`getMessages` result after the service-side filter, or a thrown error), the
mute and driving-mode flags, the fresh-id supply, and the speech environment. -/
structure PollInput where
  resp : Except Unit (List Activity)
  muted : Bool
  driving : Bool
  fresh : Nat → String
  env : SpeakEnv

/-- One tick of the poll loop: a failed `getMessages` is caught by the
`try/catch` around the cycle (lines 472-474), leaving the state unchanged and
the loop running. -/
def pollTick (inp : PollInput) (st : ChatState) : ChatState × List String :=
  match inp.resp with
  | Except.error _ => (st, [])
  | Except.ok acts => pollCycle inp.muted inp.driving inp.fresh inp.env acts st

/-- A sequence of poll ticks. -/
def runPolls : List PollInput → ChatState → ChatState
  | [], st => st
  | inp :: rest, st => runPolls rest (pollTick inp st).1

/-- The activities that survive deduplication over a whole run, in order. -/
def runKept : List PollInput → ChatState → List Activity
  | [], _ => []
  | inp :: rest, st =>
    (match inp.resp with
     | Except.ok acts => (dedupActivities st.seen acts).2
     | Except.error _ => []) ++ runKept rest (pollTick inp st).1

/-- Number of occurrences, across all successful ticks of a run, of activities
whose dedup key is `t`. -/
def occCount (t : String) : List PollInput → Nat
  | [] => 0
  | inp :: rest =>
    (match inp.resp with
     | Except.ok acts => acts.countP (fun a => actKey a == t)
     | Except.error _ => 0) + occCount t rest

/-- The "New Chat" handler (ChatWindow.tsx lines 822-838): empties the
transcript and `seenMessageIds` (and resets greeting/persistence state, not
modelled).  It does not touch `spokenMessageIds` or the speech flags. -/
def handleNewChat (st : ChatState) : ChatState :=
  { st with transcript := [], seen := [] }

/-- Mutable fields of `CopilotChatService`: the conversation id and the
watermark cursor (both `string | null`). -/
structure ServiceState where
  conversationId : Option String
  watermark : Option String
deriving DecidableEq, Repr

/-- Outcome of the HTTP GET behind `getMessages`: a non-ok / network failure,
or a JSON body `{ activities, watermark }` (a watermark is always present in
the body, even when `activities` is empty). -/
inductive FetchResult where
  | fail : FetchResult
  | ok : List Activity → String → FetchResult
deriving Repr

/-- The watermark query parameter the service puts in the request URL
(`this.watermark ? url?watermark=... : url`, lines 316-318). -/
def requestWatermark (s : ServiceState) : Option String :=
  match s.watermark with
  | some w => if w = "" then none else some w
  | none => none

/-- The service-side activity filter of `getMessages` (lines 357-372): keep
only bot-sent `message` activities without the silent-greeting marker. -/
def serviceKeep (a : Activity) : Bool :=
  if a.fromId = "user" then false
  else if a.type ≠ "message" then false
  else
    match a.channelData with
    | some cd => cd.silentGreeting ≠ some true
    | none => true

/-- `CopilotChatService.getMessages` (lines 311-382): throws when no
conversation is started or the response is not ok (leaving the cursor
untouched); on success stores the returned watermark — regardless of whether
any activities came back — and returns the filtered activities. -/
def serviceGetMessages (s : ServiceState) (r : FetchResult) :
    ServiceState × Except Unit (List Activity) :=
  match s.conversationId with
  | none => (s, Except.error ())
  | some _ =>
    match r with
    | FetchResult.fail => (s, Except.error ())
    | FetchResult.ok acts wm =>
      ({ s with watermark := some wm }, Except.ok (acts.filter serviceKeep))

/-- A sequence of `getMessages` calls (the cursor side of the poll loop). -/
def runService : List FetchResult → ServiceState → ServiceState
  | [], s => s
  | r :: rest, s => runService rest (serviceGetMessages s r).1

/-- The watermark returned by the last successful fetch of a sequence, if any. -/
def lastOkWatermark : List FetchResult → Option String
  | [] => none
  | FetchResult.fail :: rest => lastOkWatermark rest
  | FetchResult.ok _ wm :: rest =>
    match lastOkWatermark rest with
    | some w => some w
    | none => some wm

/-- Outcome of the HTTP probe behind `reconnectConversation`. -/
inductive HttpResult where
  | ok : HttpResult
  | status : Nat → HttpResult
  | netError : HttpResult
deriving DecidableEq, Repr

/-- `CopilotChatService.reconnectConversation` (lines 78-110): on an ok probe
it adopts the saved conversation id and watermark and returns true; on HTTP
403/404 (expired / not found), any other status, or a thrown fetch it returns
false without touching the service state. -/
def reconnectConversation (s : ServiceState) (cid : String) (wm : Option String)
    (r : HttpResult) : ServiceState × Bool :=
  match r with
  | HttpResult.ok => ({ conversationId := some cid, watermark := wm }, true)
  | HttpResult.status _ => (s, false)
  | HttpResult.netError => (s, false)

/-- `CopilotChatService.startConversation` (lines 115-137): on success stores
the new conversation id (the `onStateChange` persistence callback is applied by
the caller model below); on failure throws. -/
def startConversation (s : ServiceState) (r : Except Unit String) :
    ServiceState × Except Unit String :=
  match r with
  | Except.error _ => (s, Except.error ())
  | Except.ok cid => ({ s with conversationId := some cid }, Except.ok cid)

/-- Observable persistence actions of the initialization flow. -/
inductive InitEvent where
  | clearedSaved : InitEvent
  | startedNew : InitEvent
deriving DecidableEq, Repr

/-- World state of the control's initialization: the persisted conversation
cursor (localStorage, already loaded/expiry-checked) and the fresh service. -/
structure InitWorld where
  storage : Option (String × Option String)
  service : ServiceState
deriving DecidableEq, Repr

/-- The `initializeChat` flow of the control entry point (lines 85-107 of the
Control component): with a saved cursor, probe `reconnectConversation`; if the
probe fails, clear the persisted state and start a brand-new conversation
(whose id is then re-persisted by the `onStateChange` callback together with
the service's current watermark); with no saved cursor, start directly.
Returns the world, `isReconnected` (or the start failure), and the
persistence events in order. -/
def initChat (w : InitWorld) (reconResp : HttpResult)
    (startResp : Except Unit String) :
    InitWorld × Except Unit Bool × List InitEvent :=
  match w.storage with
  | some sv =>
    let rc := reconnectConversation w.service sv.1 sv.2 reconResp
    if rc.2 then
      ({ w with service := rc.1 }, Except.ok true, [])
    else
      let sc := startConversation rc.1 startResp
      match sc.2 with
      | Except.ok newId =>
        ({ storage := some (newId, sc.1.watermark), service := sc.1 },
         Except.ok false, [InitEvent.clearedSaved, InitEvent.startedNew])
      | Except.error _ =>
        ({ storage := none, service := sc.1 },
         Except.error (), [InitEvent.clearedSaved, InitEvent.startedNew])
  | none =>
    let sc := startConversation w.service startResp
    match sc.2 with
    | Except.ok newId =>
      ({ storage := some (newId, sc.1.watermark), service := sc.1 },
       Except.ok false, [InitEvent.startedNew])
    | Except.error _ =>
      ({ storage := none, service := sc.1 }, Except.error (), [InitEvent.startedNew])

/-- The recognition noise stoplist (ChatWindow.tsx line 496). -/
def noiseWords : List String :=
  ["no", "oh", "uh", "um", "ah", "huh", "hmm", "yeah", "the", "a", "i"]

/-- JS `String.prototype.trim()`: strip whitespace from both ends (structural
embedding over the character list). -/
def jsTrim (s : String) : String :=
  ⟨((s.data.dropWhile Char.isWhitespace).reverse.dropWhile Char.isWhitespace).reverse⟩

/-- JS `String.prototype.toLowerCase()` (character-wise lowering). -/
def jsToLower (s : String) : String :=
  ⟨s.data.map Char.toLower⟩

/-- The noise-rejection heuristic of `recognitionRef.current.onresult` (lines
496-501): the trimmed lowercased transcript is in the stoplist, or shorter
than 3 characters, or the reported confidence (`undefined` when the engine
gives none) is below 0.5. -/
def isLikelyNoise (transcript : String) (confidence : Option ℚ) : Bool :=
  let trimmed := jsToLower (jsTrim transcript)
  noiseWords.contains trimmed || trimmed.length < 3 ||
    (match confidence with
     | some c => decide (c < mkRat 1 2)
     | none => false)

/-- Recognition-side mutable state touched by the `onresult` handler:
`inputText`, `transcribedText`, `lastUserInput`, `isListening`, and the
pending auto-send debounce timer (carrying the transcript it will send). -/
structure RecogState where
  inputText : String
  transcribedText : String
  lastUserInput : String
  isListening : Bool
  pendingAutoSend : Option String
deriving DecidableEq, Repr

/-- Result of one `onresult` event: the updated state and, if the handler armed
the auto-send debounce timer, the scheduled transcript with its delay (ms). -/
structure RecogOutcome where
  state : RecogState
  scheduled : Option (String × Nat)
deriving DecidableEq, Repr

/-- The `onresult` handler (ChatWindow.tsx lines 491-550).  In hands-free
(driving) mode: interim results only update the live transcript display; a
final result that is likely noise is discarded (early return); a non-noise
final result fills the input, stops listening, cancels any pending auto-send
timer and schedules a new one for 2000 ms.  Outside driving mode the result is
placed into the input field without auto-send. -/
def onResult (driving : Bool) (transcript : String) (isFinal : Bool)
    (confidence : Option ℚ) (st : RecogState) : RecogOutcome :=
  let noise := isLikelyNoise transcript confidence
  if driving then
    if !isFinal then
      if !noise || 5 < transcript.length then
        { state := { st with transcribedText := transcript }, scheduled := none }
      else { state := st, scheduled := none }
    else
      if noise then
        { state := { st with transcribedText := "" }, scheduled := none }
      else
        { state :=
            { st with inputText := transcript, lastUserInput := transcript,
                      isListening := false, transcribedText := "",
                      pendingAutoSend := some transcript },
          scheduled := some (transcript, 2000) }
  else
    { state := { st with inputText := transcript, isListening := false },
      scheduled := none }

/-! ### Concrete fixtures used by witnesses and counterexamples -/

def actHello : Activity :=
  { id := some "a1", type := "message", fromId := "bot", text := some "Hello",
    timestamp := none, attachments := none, channelData := none }

def actWorld : Activity :=
  { id := some "a2", type := "message", fromId := "bot", text := some "World",
    timestamp := none, attachments := none, channelData := none }

def actNoId : Activity :=
  { id := none, type := "message", fromId := "bot", text := some "anon turn",
    timestamp := none, attachments := none, channelData := none }

def actNoId2 : Activity :=
  { id := none, type := "message", fromId := "bot", text := some "another anon",
    timestamp := none, attachments := none, channelData := none }

def chat0 : ChatState :=
  { seen := [], spoken := [], transcript := [], isSpeaking := false, isPlaying := false }

def envQuiet : SpeakEnv := { cancelAt := fun _ => false, throwsAt := fun _ => false }

def envThrow1 : SpeakEnv := { cancelAt := fun _ => false, throwsAt := fun n => n == 0 }

def envCancel : SpeakEnv := { cancelAt := fun _ => true, throwsAt := fun _ => false }

def msgs2 : List Message := [mapActivity "F1" actHello, mapActivity "F2" actWorld]

def recog0 : RecogState :=
  { inputText := "", transcribedText := "", lastUserInput := "", isListening := true,
    pendingAutoSend := none }

/-! ### Lemmas about the marking loop, the dedup filter and the speech walk -/

theorem markUnspoken_spoken_mono (l : List Message) (spoken : List String) :
    spoken ⊆ (markUnspoken spoken l).1 := by
  induction l generalizing spoken with
  | nil => exact fun x h => h
  | cons m rest ih =>
    simp only [markUnspoken]
    split
    · exact fun x hx => ih (m.id :: spoken) (List.mem_cons_of_mem _ hx)
    · exact ih spoken

theorem markUnspoken_mem (l : List Message) (spoken : List String)
    (m : Message) (hm : m ∈ l) (hs : m.speakText ≠ "") :
    m.id ∈ (markUnspoken spoken l).1 := by
  induction l generalizing spoken with
  | nil => cases hm
  | cons a rest ih =>
    simp only [markUnspoken]
    rcases List.mem_cons.mp hm with rfl | hm2
    · split
      · exact markUnspoken_spoken_mono rest _ (List.mem_cons_self _ _)
      · rename_i h
        have hid : m.id ∈ spoken := by
          by_contra hnot
          exact h ⟨hs, hnot⟩
        exact markUnspoken_spoken_mono rest spoken hid
    · split
      · exact ih _ hm2
      · exact ih _ hm2

theorem dedupActivities_seen_mono (acts : List Activity) (seen : List String) :
    seen ⊆ (dedupActivities seen acts).1 := by
  induction acts generalizing seen with
  | nil => exact fun x h => h
  | cons a rest ih =>
    simp only [dedupActivities]
    split
    · exact ih seen
    · exact fun x hx => ih (actKey a :: seen) (List.mem_cons_of_mem _ hx)

theorem walkLoop_cons (env : SpeakEnv) (n : Nat) (m : Message) (rest : List Message) :
    walkLoop env n (m :: rest) =
      if env.cancelAt n then [] else m.speakText :: walkLoop env (n + 1) rest := by
  cases hc : speakCall env n <;> simp [walkLoop, hc]

theorem walkLoop_cancel_congr (env env' : SpeakEnv)
    (h : env'.cancelAt = env.cancelAt) (n : Nat) (msgs : List Message) :
    walkLoop env' n msgs = walkLoop env n msgs := by
  induction msgs generalizing n with
  | nil => rfl
  | cons m rest ih => rw [walkLoop_cons, walkLoop_cons, h, ih]

theorem walkLoop_no_cancel (env : SpeakEnv) (h : ∀ n, env.cancelAt n = false)
    (n : Nat) (msgs : List Message) :
    walkLoop env n msgs = msgs.map (fun m => m.speakText) := by
  induction msgs generalizing n with
  | nil => rfl
  | cons m rest ih => rw [walkLoop_cons, h, ih]; simp

/-! ### Per-cycle structure of `pollCycle` -/

theorem speakPhase_transcript (muted driving : Bool) (env : SpeakEnv)
    (newMsgs : List Message) (st : ChatState) :
    ((speakPhase muted driving env newMsgs st).1).transcript = st.transcript := by
  unfold speakPhase
  split
  · dsimp only
    split
    · rfl
    · split
      · rfl
      · simp [runSpeakTask]
  · rfl

theorem speakPhase_seen (muted driving : Bool) (env : SpeakEnv)
    (newMsgs : List Message) (st : ChatState) :
    ((speakPhase muted driving env newMsgs st).1).seen = st.seen := by
  unfold speakPhase
  split
  · dsimp only
    split
    · rfl
    · split
      · rfl
      · simp [runSpeakTask]
  · rfl

theorem speakPhase_spoken_mono (muted driving : Bool) (env : SpeakEnv)
    (newMsgs : List Message) (st : ChatState) :
    st.spoken ⊆ ((speakPhase muted driving env newMsgs st).1).spoken := by
  unfold speakPhase
  split
  · dsimp only
    split
    · exact markUnspoken_spoken_mono _ _
    · split
      · exact markUnspoken_spoken_mono _ _
      · simpa [runSpeakTask] using markUnspoken_spoken_mono newMsgs st.spoken
  · exact fun x h => h

theorem pollCycle_transcript (muted driving : Bool) (fresh : Nat → String)
    (env : SpeakEnv) (acts : List Activity) (st : ChatState) :
    ((pollCycle muted driving fresh env acts st).1).transcript
      = st.transcript ++ cycleNewMessages fresh st.seen acts := by
  unfold pollCycle cycleNewMessages
  dsimp only
  split
  · rename_i h
    simp [List.isEmpty_iff.mp h]
  · rw [speakPhase_transcript]

theorem pollCycle_seen (muted driving : Bool) (fresh : Nat → String)
    (env : SpeakEnv) (acts : List Activity) (st : ChatState) :
    ((pollCycle muted driving fresh env acts st).1).seen
      = (dedupActivities st.seen acts).1 := by
  unfold pollCycle
  dsimp only
  split
  · rfl
  · rw [speakPhase_seen]

theorem pollCycle_spoken_mono (muted driving : Bool) (fresh : Nat → String)
    (env : SpeakEnv) (acts : List Activity) (st : ChatState) :
    st.spoken ⊆ ((pollCycle muted driving fresh env acts st).1).spoken := by
  unfold pollCycle
  dsimp only
  split
  · exact fun x h => h
  · exact fun x hx => speakPhase_spoken_mono _ _ _ _ _ hx

theorem pollCycle_seen_mono (muted driving : Bool) (fresh : Nat → String)
    (env : SpeakEnv) (acts : List Activity) (st : ChatState) :
    st.seen ⊆ ((pollCycle muted driving fresh env acts st).1).seen := by
  rw [pollCycle_seen]
  exact dedupActivities_seen_mono acts st.seen

theorem speakPhase_muted (env : SpeakEnv) (newMsgs : List Message)
    (st : ChatState) : speakPhase true false env newMsgs st = (st, []) := by
  unfold speakPhase
  simp

theorem speakPhase_locked (muted driving : Bool) (env : SpeakEnv)
    (newMsgs : List Message) (st : ChatState)
    (hss : (!muted || driving) = true) (hlock : st.isSpeaking = true) :
    (speakPhase muted driving env newMsgs st).2 = [] ∧
    ((speakPhase muted driving env newMsgs st).1).spoken
      = (markUnspoken st.spoken newMsgs).1 := by
  unfold speakPhase
  simp only [hss, if_true]
  split
  · exact ⟨rfl, rfl⟩
  · simp [hlock]

/-! ### Claim theorems -/

theorem pollCycle_muted_eq (fresh : Nat → String) (env : SpeakEnv)
    (acts : List Activity) (st : ChatState) :
    pollCycle true false fresh env acts st
      = ({ st with
            seen := (dedupActivities st.seen acts).1,
            transcript := st.transcript ++ cycleNewMessages fresh st.seen acts },
         []) := by
  unfold pollCycle cycleNewMessages
  dsimp only
  split
  · rename_i h
    rw [List.isEmpty_iff.mp h]
    simp
  · rw [speakPhase_muted]

/-- C1: if new bot ChatMessages arrive in a poll cycle while speech output is
muted (`isMuted = true`) and hands-free driving mode is off, all of them are
appended to the transcript, zero speech invocations occur, and none of their
ids are added to `spokenMessageIds` (the set is left exactly as it was), so a
later unmute can still speak them. -/
theorem claimC1 (fresh : Nat → String) (env : SpeakEnv) (acts : List Activity)
    (st : ChatState) :
    (pollCycle true false fresh env acts st).2 = [] ∧
    ((pollCycle true false fresh env acts st).1).transcript
      = st.transcript ++ cycleNewMessages fresh st.seen acts ∧
    ((pollCycle true false fresh env acts st).1).spoken = st.spoken := by
  rw [pollCycle_muted_eq]
  exact ⟨rfl, rfl, rfl⟩

/-- C2: if the speak path is entered (`shouldSpeak` holds) while a previous
speech walk still holds the speaking lock, the cycle performs no speech
invocation, and every new message carrying speakable text is nevertheless
recorded in `spokenMessageIds` (the marking loop runs before the held-lock
check), so no message is ever spoken twice. -/
theorem claimC2 (muted driving : Bool) (fresh : Nat → String) (env : SpeakEnv)
    (acts : List Activity) (st : ChatState)
    (hspeak : muted = false ∨ driving = true)
    (hlock : st.isSpeaking = true) :
    (pollCycle muted driving fresh env acts st).2 = [] ∧
    ∀ m ∈ cycleNewMessages fresh st.seen acts, m.speakText ≠ "" →
      m.id ∈ ((pollCycle muted driving fresh env acts st).1).spoken := by
  have hss : (!muted || driving) = true := by
    rcases hspeak with h | h <;> simp [h]
  unfold pollCycle cycleNewMessages
  dsimp only
  split
  · rename_i h
    refine ⟨rfl, ?_⟩
    intro m hm
    rw [List.isEmpty_iff.mp h] at hm
    cases hm
  · rename_i h
    have hsl := speakPhase_locked muted driving env
      ((mapWithFresh fresh 0 (dedupActivities st.seen acts).2).filter
        (fun m => hasContent m))
      { st with
          seen := (dedupActivities st.seen acts).1,
          transcript := st.transcript ++
            (mapWithFresh fresh 0 (dedupActivities st.seen acts).2).filter
              (fun m => hasContent m) }
      hss hlock
    refine ⟨hsl.1, fun m hm hs => ?_⟩
    rw [hsl.2]
    exact markUnspoken_mem _ _ m hm hs

/-- C3: the speaking lock is released on every exit path of a speech walk —
whatever the cancellation and failure environment does, the `finally` block
leaves `isSpeakingRef` false; a per-message speak failure is swallowed and
does not change which messages the walk visits; with the cancellation flag
never set every message is uttered; with the flag set before the first
utterance the walk terminates without speaking. -/
theorem claimC3 (env env' : SpeakEnv) (msgs : List Message) (st : ChatState) :
    ((runSpeakTask env msgs st).1).isSpeaking = false ∧
    (env'.cancelAt = env.cancelAt → walkLoop env' 0 msgs = walkLoop env 0 msgs) ∧
    ((∀ n, env.cancelAt n = false) →
      walkLoop env 0 msgs = msgs.map (fun m => m.speakText)) ∧
    (env.cancelAt 0 = true → walkLoop env 0 msgs = []) := by
  refine ⟨rfl, fun h => walkLoop_cancel_congr env env' h 0 msgs,
    fun h => walkLoop_no_cancel env h 0 msgs, fun h => ?_⟩
  cases msgs with
  | nil => rfl
  | cons m rest => rw [walkLoop_cons, h]; rfl

/-- Witness for C3: a two-message walk whose first speak call throws still
utters both messages and releases the lock; an environment whose cancellation
flag is set from the start utters nothing. -/
theorem claimC3_witness :
    ((runSpeakTask envThrow1 msgs2 { chat0 with isSpeaking := true, isPlaying := true }).1).isSpeaking = false ∧
    walkLoop envQuiet 0 msgs2 = walkLoop envThrow1 0 msgs2 ∧
    walkLoop envThrow1 0 msgs2 = msgs2.map (fun m => m.speakText) ∧
    walkLoop envCancel 0 msgs2 = [] :=
  ⟨(claimC3 envThrow1 envQuiet msgs2 { chat0 with isSpeaking := true, isPlaying := true }).1,
   (claimC3 envThrow1 envQuiet msgs2 { chat0 with isSpeaking := true, isPlaying := true }).2.1 rfl,
   (claimC3 envThrow1 envQuiet msgs2 { chat0 with isSpeaking := true, isPlaying := true }).2.2.1 (fun _ => rfl),
   (claimC3 envCancel envQuiet msgs2 { chat0 with isSpeaking := true, isPlaying := true }).2.2.2 rfl⟩

/-- C7: in hands-free mode, a final recognition result that the noise
heuristic flags (stoplist word, fewer than 3 characters, or reported
confidence below 0.5) is discarded — nothing is scheduled and the pending
debounce timer is untouched; a non-noise final result is scheduled for
auto-send after the 2000 ms debounce, superseding any pending timer. -/
theorem claimC7 (transcript : String) (confidence : Option ℚ) (st : RecogState) :
    (isLikelyNoise transcript confidence = true →
      (onResult true transcript true confidence st).scheduled = none ∧
      ((onResult true transcript true confidence st).state).pendingAutoSend
        = st.pendingAutoSend) ∧
    (isLikelyNoise transcript confidence = false →
      (onResult true transcript true confidence st).scheduled = some (transcript, 2000) ∧
      ((onResult true transcript true confidence st).state).pendingAutoSend
        = some transcript) := by
  constructor <;> intro h <;> simp [onResult, h]

/-- Witness for C7: "um" (stoplist, length 2) never triggers auto-send;
"turn on the lights" with confidence 0.9 is scheduled after the 2 s debounce. -/
theorem claimC7_witness :
    ((onResult true "um" true none recog0).scheduled = none ∧
      ((onResult true "um" true none recog0).state).pendingAutoSend
        = recog0.pendingAutoSend) ∧
    ((onResult true "turn on the lights" true (some (mkRat 9 10)) recog0).scheduled
        = some ("turn on the lights", 2000) ∧
      ((onResult true "turn on the lights" true (some (mkRat 9 10)) recog0).state).pendingAutoSend
        = some "turn on the lights") :=
  ⟨(claimC7 "um" none recog0).1 (by decide),
   (claimC7 "turn on the lights" (some (mkRat 9 10)) recog0).2 (by decide)⟩

/-- Counterexample to C9 as stated: after `handleNewChat` on a state whose
`spokenMessageIds` holds "m1", the spoken set is not empty — the handler
clears only `seenMessageIds` (and the transcript), never `spokenMessageIds`. -/
theorem claimC9_counterexample :
    ¬ ((handleNewChat { chat0 with seen := ["t1"], spoken := ["m1"] }).seen = [] ∧
       (handleNewChat { chat0 with seen := ["t1"], spoken := ["m1"] }).spoken = []) := by
  decide

/-- C9 as amended: the explicit new-conversation action empties `seenMessageIds`
and the transcript but leaves `spokenMessageIds` exactly as it was; and no poll
tick removes anything from either set (both only grow during a session). -/
theorem claimC9 (st : ChatState) :
    (handleNewChat st).seen = [] ∧
    (handleNewChat st).transcript = [] ∧
    (handleNewChat st).spoken = st.spoken ∧
    ∀ inp : PollInput, st.seen ⊆ ((pollTick inp st).1).seen ∧
      st.spoken ⊆ ((pollTick inp st).1).spoken := by
  refine ⟨rfl, rfl, rfl, fun inp => ?_⟩
  unfold pollTick
  cases h : inp.resp with
  | error e => exact ⟨fun x hx => hx, fun x hx => hx⟩
  | ok acts =>
    exact ⟨pollCycle_seen_mono _ _ _ _ _ _, pollCycle_spoken_mono _ _ _ _ _ _⟩

/-! ### Watermark cursor and reconnection -/

theorem serviceGetMessages_fail (s : ServiceState) :
    (serviceGetMessages s FetchResult.fail).1 = s := by
  unfold serviceGetMessages
  cases s.conversationId <;> rfl

theorem serviceGetMessages_ok (s : ServiceState) (cid : String)
    (acts : List Activity) (wm : String) (hconv : s.conversationId = some cid) :
    (serviceGetMessages s (FetchResult.ok acts wm)).1
      = { s with watermark := some wm } := by
  unfold serviceGetMessages
  rw [hconv]

theorem runService_watermark (resps : List FetchResult) (s : ServiceState)
    (cid : String) (hconv : s.conversationId = some cid) :
    (runService resps s).watermark
      = (lastOkWatermark resps).elim s.watermark some := by
  induction resps generalizing s with
  | nil => rfl
  | cons r rest ih =>
    cases r with
    | fail =>
      unfold runService lastOkWatermark
      rw [serviceGetMessages_fail]
      exact ih s hconv
    | ok acts wm =>
      unfold runService lastOkWatermark
      rw [serviceGetMessages_ok s cid acts wm hconv,
        ih { s with watermark := some wm } hconv]
      cases lastOkWatermark rest <;> rfl

/-- C5: the watermark cursor is monotone.  Over any sequence of fetches the
stored watermark ends up equal to the one returned by the last successful
call (unchanged if none succeeded); a successful `getMessages` stores the
returned watermark even when the activity list is empty; a failed fetch
leaves the whole service state unchanged; and a failed poll tick leaves the
chat state unchanged and the loop running. -/
theorem claimC5 (resps : List FetchResult) (s : ServiceState) (cid : String)
    (hconv : s.conversationId = some cid) :
    (runService resps s).watermark
      = (lastOkWatermark resps).elim s.watermark some ∧
    (∀ s' : ServiceState, (serviceGetMessages s' FetchResult.fail).1 = s') ∧
    (∀ (acts : List Activity) (wm : String),
      ((serviceGetMessages s (FetchResult.ok acts wm)).1).watermark = some wm) ∧
    (∀ (inp : PollInput) (rest : List PollInput) (st : ChatState),
      inp.resp = Except.error () → runPolls (inp :: rest) st = runPolls rest st) := by
  refine ⟨runService_watermark resps s cid hconv, serviceGetMessages_fail,
    fun acts wm => ?_, fun inp rest st h => ?_⟩
  · rw [serviceGetMessages_ok s cid acts wm hconv]
  · show runPolls rest (pollTick inp st).1 = runPolls rest st
    unfold pollTick
    rw [h]

def svc0 : ServiceState := { conversationId := some "c1", watermark := none }

/-- Witness for C5: a successful fetch with an empty activity list followed by
a failed fetch leaves the stored watermark at the returned "w1". -/
theorem claimC5_witness :
    (runService [FetchResult.ok [] "w1", FetchResult.fail] svc0).watermark
      = (lastOkWatermark [FetchResult.ok [] "w1", FetchResult.fail]).elim
          svc0.watermark some ∧
    (∀ s' : ServiceState, (serviceGetMessages s' FetchResult.fail).1 = s') ∧
    (∀ (acts : List Activity) (wm : String),
      ((serviceGetMessages svc0 (FetchResult.ok acts wm)).1).watermark = some wm) ∧
    (∀ (inp : PollInput) (rest : List PollInput) (st : ChatState),
      inp.resp = Except.error () → runPolls (inp :: rest) st = runPolls rest st) :=
  claimC5 [FetchResult.ok [] "w1", FetchResult.fail] svc0 "c1" rfl

/-- C6: with a stored conversation cursor, a reconnect probe answered 403 or
404 makes `reconnectConversation` return false, after which the persisted
state is cleared and a brand-new conversation is started (and re-persisted
under the new id); a successful probe returns true and adopts the saved
conversation id and watermark unchanged. -/
theorem claimC6 (w : InitWorld) (cid startId : String) (wm : Option String)
    (reconResp : HttpResult) (sresp : Except Unit String)
    (hsv : w.storage = some (cid, wm))
    (h404 : reconResp = HttpResult.status 403 ∨ reconResp = HttpResult.status 404) :
    (reconnectConversation w.service cid wm reconResp).2 = false ∧
    initChat w reconResp (Except.ok startId)
      = ({ storage := some (startId, w.service.watermark),
           service := { w.service with conversationId := some startId } },
         Except.ok false, [InitEvent.clearedSaved, InitEvent.startedNew]) ∧
    initChat w HttpResult.ok sresp
      = ({ w with service := { conversationId := some cid, watermark := wm } },
         Except.ok true, []) := by
  obtain ⟨stor, serv⟩ := w
  simp only at hsv
  subst hsv
  rcases h404 with rfl | rfl <;>
    simp [initChat, reconnectConversation, startConversation]

def world0 : InitWorld :=
  { storage := some ("c1", some "w0"),
    service := { conversationId := none, watermark := none } }

/-- Witness for C6: a 404 probe on a stored cursor leads to a cleared save and
a fresh conversation "c2"; an ok probe adopts "c1" with watermark "w0". -/
theorem claimC6_witness :
    (reconnectConversation world0.service "c1" (some "w0") (HttpResult.status 404)).2
      = false ∧
    initChat world0 (HttpResult.status 404) (Except.ok "c2")
      = ({ storage := some ("c2", world0.service.watermark),
           service := { world0.service with conversationId := some "c2" } },
         Except.ok false, [InitEvent.clearedSaved, InitEvent.startedNew]) ∧
    initChat world0 HttpResult.ok (Except.ok "c2")
      = ({ world0 with
            service := { conversationId := some "c1", watermark := some "w0" } },
         Except.ok true, []) :=
  claimC6 world0 "c1" "c2" (some "w0") (HttpResult.status 404) (Except.ok "c2")
    rfl (Or.inr rfl)

/-! ### Adaptive-card extraction (C8) -/

/-- The speakable text the claim wording prescribes for an adaptive card: the
card's explicit speak field when present, otherwise the card body's text
elements joined with ". ".  Stated from the claim, for comparison with the
mapper translated from the source. -/
def claimCardSpeakText (card : CardContent) : String :=
  match card.speak with
  | some s => s
  | none => String.intercalate ". " (bodyTexts (card.body.getD []))

/-- Whether the first-attachment examination of the mapper turns this
attachment into a sign-in or adaptive card. -/
def attachmentYieldsCard (att : Attachment) : Bool :=
  if att.contentType = oauthCardType ∨ att.contentType = signinCardType then true
  else if att.contentType = adaptiveCardType then att.content.isSome
  else false

def cardNoSpeakEmptyBody : CardContent :=
  { buttons := none, body := some [], speak := none }

def actCardFallback : Activity :=
  { id := some "c1", type := "message", fromId := "bot", text := some "hi",
    timestamp := none,
    attachments := some
      [{ contentType := adaptiveCardType, content := some cardNoSpeakEmptyBody }],
    channelData := none }

/-- Counterexample to C8 as stated: a turn with display text "hi" carrying an
adaptive card with no speak field and a body without text elements.  The claim
prescribes the empty join "" as speakable text, but the mapper's
`speakText || messageText` fallback yields the display text "hi". -/
theorem claimC8_counterexample :
    (mapActivity "F" actCardFallback).speakText = "hi" ∧
    claimCardSpeakText cardNoSpeakEmptyBody = "" ∧
    ¬ ((mapActivity "F" actCardFallback).speakText
        = claimCardSpeakText cardNoSpeakEmptyBody) := by
  refine ⟨rfl, rfl, ?_⟩
  decide

theorem jsTruthy_iff (o : Option String) : jsTruthy o = true ↔ jsOr o "" ≠ "" := by
  cases o with
  | none => simp [jsTruthy, jsOr]
  | some s => by_cases h : s = "" <;> simp [jsTruthy, jsOr, h]

/-- C8 as amended: for every turn whose first attachment is an adaptive card
with content, the mapped message's speakable text equals the card's speak
field when that is present and non-empty, otherwise the card body's text
elements joined with ". " when that join is non-empty, otherwise the message's
display text; when the turn supplied no display text, the display text is
backfilled from the card body's text elements joined with single spaces; and a
turn with no text whose first attachment (if any) yields neither a sign-in
card nor an adaptive card produces no ChatMessage. -/
theorem claimC8 (a : Activity) (card : CardContent) (rest : List Attachment)
    (fid : String)
    (hatt : a.attachments
      = some ({ contentType := adaptiveCardType, content := some card } :: rest)) :
    ((mapActivity fid a).speakText =
      if jsTruthy card.speak then jsOr card.speak ""
      else if String.intercalate ". " (bodyTexts (card.body.getD [])) = "" then
        (mapActivity fid a).text
      else String.intercalate ". " (bodyTexts (card.body.getD []))) ∧
    (jsOr a.text "" = "" →
      (mapActivity fid a).text
        = String.intercalate " " (bodyTexts (card.body.getD []))) ∧
    (∀ (b : Activity) (g : String), jsOr b.text "" = "" →
      (match b.attachments with
       | some (att :: _) => attachmentYieldsCard att
       | _ => false) = false →
      hasContent (mapActivity g b) = false) := by
  have hne : ¬ (adaptiveCardType = oauthCardType ∨ adaptiveCardType = signinCardType) := by
    decide
  have hadp : (adaptiveCardType = adaptiveCardType) = True := by simp
  refine ⟨?_, ?_, ?_⟩
  · unfold mapActivity
    rw [hatt]
    unfold mapAttachment
    dsimp only
    rw [if_neg hne, if_pos rfl]
    dsimp only
    by_cases hsp : jsTruthy card.speak
    · have hne2 : jsOr card.speak "" ≠ "" := (jsTruthy_iff card.speak).mp hsp
      simp [hsp, hne2]
    · simp only [hsp, Bool.false_eq_true, if_false]
      cases hb : card.body with
      | none =>
        simp [bodyTexts, String.intercalate]
      | some body =>
        cases body with
        | nil => simp [bodyTexts, String.intercalate]
        | cons x xs =>
          simp only [Option.getD_some, List.length_cons, Nat.zero_lt_succ, if_true]
  · intro htext
    unfold mapActivity
    rw [hatt]
    unfold mapAttachment
    dsimp only
    rw [if_neg hne, if_pos rfl]
    dsimp only
    rw [htext]
    cases hb : card.body with
    | none => simp [bodyTexts, String.intercalate]
    | some body =>
      cases body with
      | nil => simp [bodyTexts, String.intercalate]
      | cons x xs => simp
  · intro b g htext hcard
    unfold mapActivity
    cases hb : b.attachments with
    | none => simp [hasContent, htext]
    | some atts =>
      cases atts with
      | nil => simp [hasContent, htext]
      | cons att rest2 =>
        rw [hb] at hcard
        dsimp only at hcard
        unfold attachmentYieldsCard at hcard
        dsimp only
        unfold mapAttachment
        by_cases h1 : att.contentType = oauthCardType ∨ att.contentType = signinCardType
        · rw [if_pos h1] at hcard
          cases hcard
        · rw [if_neg h1] at hcard
          rw [if_neg h1]
          cases hc : att.content with
          | none => simp [hasContent, htext]
          | some card2 =>
            dsimp only
            rw [hc] at hcard
            by_cases h2 : att.contentType = adaptiveCardType
            · rw [if_pos h2] at hcard
              simp at hcard
            · rw [if_neg h2] at hcard
              rw [if_neg h2]
              simp [hasContent, htext]

/-! ### Dedup counting (C4, C10) -/

theorem dedupActivities_countP (t : String) (acts : List Activity)
    (seen : List String) :
    ((dedupActivities seen acts).2.countP (fun a => actKey a == t))
      = if t ∈ seen then 0 else min 1 (acts.countP (fun a => actKey a == t)) := by
  induction acts generalizing seen with
  | nil => simp [dedupActivities]
  | cons a rest ih =>
    simp only [dedupActivities]
    split
    · rename_i hmem
      rw [ih seen, List.countP_cons]
      by_cases ht : t ∈ seen
      · simp [ht]
      · have hne : (actKey a == t) = false := by
          rw [beq_eq_false_iff_ne]
          intro he
          exact ht (he ▸ hmem)
        simp [ht, hne]
    · rename_i hmem
      dsimp only
      rw [List.countP_cons, List.countP_cons, ih (actKey a :: seen)]
      by_cases hat : actKey a = t
      · subst hat
        have h1 : actKey a ∈ actKey a :: seen := List.mem_cons_self _ _
        have h2 : actKey a ∉ seen := hmem
        simp only [h1, if_true, h2, if_false, beq_self_eq_true]
        omega
      · have hne : (actKey a == t) = false := beq_eq_false_iff_ne.mpr hat
        have hmc : (t ∈ actKey a :: seen) ↔ t ∈ seen := by
          constructor
          · intro h
            rcases List.mem_cons.mp h with h | h
            · exact absurd h.symm hat
            · exact h
          · exact fun h => List.mem_cons_of_mem _ h
        by_cases ht : t ∈ seen
        · simp [ht, hmc, hne]
        · simp [ht, hmc, hne]

theorem dedupActivities_seen_mem (t : String) (acts : List Activity)
    (seen : List String) :
    t ∈ (dedupActivities seen acts).1
      ↔ t ∈ seen ∨ 0 < acts.countP (fun a => actKey a == t) := by
  induction acts generalizing seen with
  | nil => simp [dedupActivities]
  | cons a rest ih =>
    simp only [dedupActivities]
    split
    · rename_i hmem
      rw [ih seen, List.countP_cons]
      by_cases hat : actKey a = t
      · have hts : t ∈ seen := hat ▸ hmem
        simp [hts]
      · have hne : (actKey a == t) = false := beq_eq_false_iff_ne.mpr hat
        simp [hne]
    · rename_i hmem
      dsimp only
      rw [ih (actKey a :: seen), List.countP_cons]
      by_cases hat : actKey a = t
      · subst hat
        simp [List.mem_cons]
      · have hne : (actKey a == t) = false := beq_eq_false_iff_ne.mpr hat
        have hmc : (t ∈ actKey a :: seen) ↔ t ∈ seen := by
          constructor
          · intro h
            rcases List.mem_cons.mp h with h | h
            · exact absurd h.symm hat
            · exact h
          · exact fun h => List.mem_cons_of_mem _ h
        rw [hmc]
        simp [hne]

theorem dedupActivities_kept_subset (acts : List Activity) (seen : List String) :
    (dedupActivities seen acts).2 ⊆ acts := by
  induction acts generalizing seen with
  | nil => simp [dedupActivities]
  | cons a rest ih =>
    simp only [dedupActivities]
    split
    · exact fun x hx => List.mem_cons_of_mem _ (ih seen hx)
    · dsimp only
      intro x hx
      rcases List.mem_cons.mp hx with rfl | hx2
      · exact List.mem_cons_self _ _
      · exact List.mem_cons_of_mem _ (ih (actKey a :: seen) hx2)

theorem mapWithFresh_countP (t : String) (fresh : Nat → String) (ht : t ≠ "")
    (hf : ∀ n, fresh n ≠ t) (k : Nat) (acts : List Activity) :
    ((mapWithFresh fresh k acts).countP (fun m => (m.id == t) && hasContent m))
      = acts.countP (fun a => (actKey a == t) && activityHasContent a) := by
  induction acts generalizing k with
  | nil => rfl
  | cons a rest ih =>
    simp only [mapWithFresh, List.countP_cons, ih (k + 1)]
    have hid : ((mapActivity (fresh k) a).id == t) = (actKey a == t) := by
      rw [mapActivity_id]
      unfold actKey jsOr
      cases a.id with
      | none =>
        have h1 : (fresh k == t) = false := beq_eq_false_iff_ne.mpr (hf k)
        have h2 : (("" : String) == t) = false :=
          beq_eq_false_iff_ne.mpr (fun he => ht he.symm)
        rw [h1, h2]
      | some s =>
        by_cases hs : s = ""
        · have h1 : (fresh k == t) = false := beq_eq_false_iff_ne.mpr (hf k)
          have h2 : (("" : String) == t) = false :=
            beq_eq_false_iff_ne.mpr (fun he => ht he.symm)
          simp [hs, h1, h2]
        · simp [hs]
    rw [hid, hasContent_mapActivity]

theorem cycleNewMessages_countP (t : String) (fresh : Nat → String)
    (seen : List String) (acts : List Activity) (ht : t ≠ "")
    (hf : ∀ n, fresh n ≠ t)
    (hc : ∀ a ∈ acts, actKey a = t → activityHasContent a = true) :
    ((cycleNewMessages fresh seen acts).countP (fun m => m.id == t))
      = if t ∈ seen then 0 else min 1 (acts.countP (fun a => actKey a == t)) := by
  unfold cycleNewMessages
  rw [List.countP_filter, mapWithFresh_countP t fresh ht hf 0]
  rw [List.countP_congr (q := fun a => actKey a == t) ?_, dedupActivities_countP]
  intro a ha
  by_cases hat : actKey a = t
  · have := hc a (dedupActivities_kept_subset acts seen ha) hat
    simp [hat, this]
  · have hne : (actKey a == t) = false := beq_eq_false_iff_ne.mpr hat
    simp [hne]

theorem pollTick_ok (inp : PollInput) (acts : List Activity) (st : ChatState)
    (h : inp.resp = Except.ok acts) :
    pollTick inp st = pollCycle inp.muted inp.driving inp.fresh inp.env acts st := by
  unfold pollTick
  rw [h]

theorem pollTick_error (inp : PollInput) (st : ChatState)
    (h : inp.resp = Except.error ()) : pollTick inp st = (st, []) := by
  unfold pollTick
  rw [h]

theorem occCount_cons (t : String) (inp : PollInput) (rest : List PollInput) :
    occCount t (inp :: rest)
      = (match inp.resp with
         | Except.ok acts => acts.countP (fun a => actKey a == t)
         | Except.error _ => 0) + occCount t rest := rfl

theorem runKept_cons (inp : PollInput) (rest : List PollInput) (st : ChatState) :
    runKept (inp :: rest) st
      = (match inp.resp with
         | Except.ok acts => (dedupActivities st.seen acts).2
         | Except.error _ => []) ++ runKept rest (pollTick inp st).1 := rfl

theorem runPolls_countP (t : String) (inps : List PollInput) (st : ChatState)
    (ht : t ≠ "")
    (hf : ∀ inp ∈ inps, ∀ n, inp.fresh n ≠ t)
    (hc : ∀ inp ∈ inps, ∀ acts, inp.resp = Except.ok acts →
          ∀ a ∈ acts, actKey a = t → activityHasContent a = true) :
    ((runPolls inps st).transcript.countP (fun m => m.id == t))
      = st.transcript.countP (fun m => m.id == t)
        + (if t ∈ st.seen then 0 else min 1 (occCount t inps)) := by
  induction inps generalizing st with
  | nil => simp [runPolls, occCount]
  | cons inp rest ih =>
    have hf1 : ∀ n, inp.fresh n ≠ t := hf inp (List.mem_cons_self _ _)
    have hfr : ∀ i ∈ rest, ∀ n, i.fresh n ≠ t :=
      fun i hi => hf i (List.mem_cons_of_mem _ hi)
    have hcr : ∀ i ∈ rest, ∀ acts, i.resp = Except.ok acts →
        ∀ a ∈ acts, actKey a = t → activityHasContent a = true :=
      fun i hi => hc i (List.mem_cons_of_mem _ hi)
    show ((runPolls rest (pollTick inp st).1).transcript.countP (fun m => m.id == t)) = _
    cases hresp : inp.resp with
    | error e =>
      cases e
      rw [pollTick_error inp st hresp]
      rw [ih st hfr hcr]
      have ho : occCount t (inp :: rest) = occCount t rest := by
        rw [occCount_cons, hresp]
        simp
      rw [ho]
    | ok acts =>
      rw [pollTick_ok inp acts st hresp, ih _ hfr hcr]
      rw [pollCycle_transcript, pollCycle_seen, List.countP_append]
      rw [cycleNewMessages_countP t inp.fresh st.seen acts ht hf1
        (hc inp (List.mem_cons_self _ _) acts hresp)]
      have ho : occCount t (inp :: rest)
          = acts.countP (fun a => actKey a == t) + occCount t rest := by
        rw [occCount_cons, hresp]
      rw [ho]
      have hmem := dedupActivities_seen_mem t acts st.seen
      by_cases ht1 : t ∈ st.seen
      · have h2 : t ∈ (dedupActivities st.seen acts).1 := hmem.mpr (Or.inl ht1)
        simp [ht1, h2]
      · by_cases hcnt : 0 < acts.countP (fun a => actKey a == t)
        · have h2 : t ∈ (dedupActivities st.seen acts).1 := hmem.mpr (Or.inr hcnt)
          simp only [ht1, if_false, h2, if_true]
          omega
        · have h2 : t ∉ (dedupActivities st.seen acts).1 := by
            rw [hmem]
            push_neg
            exact ⟨ht1, Nat.le_of_not_lt hcnt⟩
          simp only [ht1, if_false, h2, if_false]
          omega

theorem runKept_countP (t : String) (inps : List PollInput) (st : ChatState) :
    ((runKept inps st).countP (fun a => actKey a == t))
      = if t ∈ st.seen then 0 else min 1 (occCount t inps) := by
  induction inps generalizing st with
  | nil => simp [runKept, occCount]
  | cons inp rest ih =>
    cases hresp : inp.resp with
    | error e =>
      cases e
      have hk : runKept (inp :: rest) st = runKept rest st := by
        rw [runKept_cons, hresp, pollTick_error inp st hresp]
        simp
      rw [hk, ih st]
      have ho : occCount t (inp :: rest) = occCount t rest := by
        rw [occCount_cons, hresp]
        simp
      rw [ho]
    | ok acts =>
      have hk : runKept (inp :: rest) st
          = (dedupActivities st.seen acts).2
            ++ runKept rest (pollTick inp st).1 := by
        rw [runKept_cons, hresp]
      rw [hk, List.countP_append, pollTick_ok inp acts st hresp, ih _,
        pollCycle_seen, dedupActivities_countP]
      have ho : occCount t (inp :: rest)
          = acts.countP (fun a => actKey a == t) + occCount t rest := by
        rw [occCount_cons, hresp]
      rw [ho]
      have hmem := dedupActivities_seen_mem t acts st.seen
      by_cases ht1 : t ∈ st.seen
      · have h2 : t ∈ (dedupActivities st.seen acts).1 := hmem.mpr (Or.inl ht1)
        simp [ht1, h2]
      · by_cases hcnt : 0 < acts.countP (fun a => actKey a == t)
        · have h2 : t ∈ (dedupActivities st.seen acts).1 := hmem.mpr (Or.inr hcnt)
          simp only [ht1, if_false, h2, if_true]
          omega
        · have h2 : t ∉ (dedupActivities st.seen acts).1 := by
            rw [hmem]
            push_neg
            exact ⟨ht1, Nat.le_of_not_lt hcnt⟩
          simp only [ht1, if_false, h2, if_false]
          omega

/-- C4: processing a Turn id is idempotent across poll cycles.  Over any
sequence of poll ticks: a turn id already in `seenMessageIds` contributes no
ChatMessage at all; a content-bearing turn id not yet seen contributes exactly
one ChatMessage to the transcript, no matter how many times activities with
that id occur in the same or different cycles.  (`t ≠ ""` and the fresh-id
side conditions rule out collisions with the `Math.random()` fallback ids.) -/
theorem claimC4 (inps : List PollInput) (st : ChatState) (t : String)
    (ht : t ≠ "")
    (hf : ∀ inp ∈ inps, ∀ n, inp.fresh n ≠ t)
    (hc : ∀ inp ∈ inps, ∀ acts, inp.resp = Except.ok acts →
          ∀ a ∈ acts, actKey a = t → activityHasContent a = true) :
    (t ∈ st.seen →
      ((runPolls inps st).transcript.countP (fun m => m.id == t))
        = st.transcript.countP (fun m => m.id == t)) ∧
    (t ∉ st.seen → 0 < occCount t inps →
      ((runPolls inps st).transcript.countP (fun m => m.id == t))
        = st.transcript.countP (fun m => m.id == t) + 1) := by
  constructor
  · intro hseen
    rw [runPolls_countP t inps st ht hf hc]
    simp [hseen]
  · intro hseen hocc
    rw [runPolls_countP t inps st ht hf hc]
    simp only [hseen, if_false]
    omega

def inpHello : PollInput :=
  { resp := Except.ok [actHello], muted := true, driving := false,
    fresh := fun _ => "R", env := envQuiet }

/-- Witness for C4: the same turn "a1" delivered in two consecutive poll
cycles yields exactly one ChatMessage in the transcript. -/
theorem claimC4_witness :
    ((runPolls [inpHello, inpHello] chat0).transcript.countP (fun m => m.id == "a1"))
      = chat0.transcript.countP (fun m => m.id == "a1") + 1 := by
  refine (claimC4 [inpHello, inpHello] chat0 "a1" (by decide) ?_ ?_).2
    (by decide) (by decide)
  · intro inp hinp n
    simp only [List.mem_cons, List.not_mem_nil, or_false] at hinp
    rcases hinp with rfl | rfl <;>
      exact fun h => absurd (show ("R" : String) = "a1" from h) (by decide)
  · intro inp hinp acts hresp a ha hkey
    simp only [List.mem_cons, List.not_mem_nil, or_false] at hinp
    rcases hinp with rfl | rfl <;>
      · rw [show acts = [actHello] from (Except.ok.inj hresp).symm] at ha
        simp only [List.mem_cons, List.not_mem_nil, or_false] at ha
        subst ha
        decide

/-- C10: activities that arrive without an id all deduplicate under the
empty-string key — over any whole run starting from a session whose seen-set
lacks "", at most one id-less activity survives deduplication (so at most one
is materialized into a ChatMessage), every later id-less activity being
skipped as a duplicate even though it is a distinct turn; and the message an
id-less activity is materialized into receives the locally generated fresh id. -/
theorem claimC10 (inps : List PollInput) (st : ChatState)
    (h : "" ∉ st.seen) :
    ((runKept inps st).countP (fun a => actKey a == "")) ≤ 1 ∧
    ∀ (f : String) (a : Activity), actKey a = "" → (mapActivity f a).id = f := by
  constructor
  · rw [runKept_countP]
    simp [h]
  · intro f a hk
    rw [mapActivity_id]
    unfold actKey jsOr at hk
    unfold jsOr
    cases ha : a.id with
    | none => rfl
    | some s =>
      rw [ha] at hk
      dsimp only at hk
      dsimp only
      by_cases hs : s = ""
      · rw [if_pos hs]
      · rw [if_neg hs] at hk
        exact absurd hk hs

def inpNoId : PollInput :=
  { resp := Except.ok [actNoId, actNoId2], muted := true, driving := false,
    fresh := fun _ => "R", env := envQuiet }

/-- Witness for C10: two distinct id-less turns in one cycle — at most one
survives dedup; the surviving one is materialized under the fresh id. -/
theorem claimC10_witness :
    ((runKept [inpNoId] chat0).countP (fun a => actKey a == "")) ≤ 1 ∧
    (mapActivity "F" actNoId).id = "F" :=
  ⟨(claimC10 [inpNoId] chat0 (by decide)).1,
   (claimC10 [inpNoId] chat0 (by decide)).2 "F" actNoId rfl⟩

def cardSpoken : CardContent :=
  { buttons := none, body := some [{ text := some "B1" }], speak := some "S" }

def actCardSpoken : Activity :=
  { id := some "s1", type := "message", fromId := "bot", text := none,
    timestamp := none,
    attachments := some
      [{ contentType := adaptiveCardType, content := some cardSpoken }],
    channelData := none }

def actBare : Activity :=
  { id := some "b1", type := "message", fromId := "bot", text := none,
    timestamp := none, attachments := none, channelData := none }

/-- Witness for C8 (amended): a card with speak "S" is spoken as "S"; the
textless turn's display text is backfilled to "B1"; a turn with no text and no
card-yielding attachment maps to a contentless (dropped) message. -/
theorem claimC8_witness :
    (mapActivity "G" actCardSpoken).speakText = "S" ∧
    (mapActivity "G" actCardSpoken).text = "B1" ∧
    hasContent (mapActivity "G" actBare) = false := by
  have h := claimC8 actCardSpoken cardSpoken [] "G" rfl
  refine ⟨?_, ?_, h.2.2 actBare "G" rfl rfl⟩
  · rw [h.1]
    decide
  · rw [h.2.1 rfl]
    decide

/-- Witness for C2: a cycle delivering turn "a1" while the lock is held speaks
nothing, yet the id of every speakable new message lands in the spoken set. -/
theorem claimC2_witness :
    (pollCycle false false (fun _ => "F") envQuiet [actHello]
        { chat0 with isSpeaking := true }).2 = [] ∧
    ∀ m ∈ cycleNewMessages (fun _ => "F")
        ({ chat0 with isSpeaking := true } : ChatState).seen [actHello],
      m.speakText ≠ "" →
      m.id ∈ ((pollCycle false false (fun _ => "F") envQuiet [actHello]
        { chat0 with isSpeaking := true }).1).spoken :=
  claimC2 false false (fun _ => "F") envQuiet [actHello]
    { chat0 with isSpeaking := true } (Or.inl rfl) rfl
